import Mathlib

/-!
Shallow embedding of `src/VulkanEngine/main.cpp` (a minimal Vulkan
"Hello Triangle" bootstrap) and proofs about its layer/extension checks
and its lifecycle (window init, instance creation, run loop, cleanup).

Strings stand for C strings; `strcmp(a, b)` used as a C truth value is
nonzero exactly when the two strings differ, so the embedded condition is
`a != b`.  The Vulkan/GLFW runtime is modelled by a `Runtime` record that
fixes what the native calls would report; the program's observable
behaviour is the list of native calls it issues (`Event` trace) together
with a success flag (`false` means a `std::runtime_error` escaped `run`
and `main` returns `EXIT_FAILURE`).
-/

namespace VulkanEngine

/-- The global `validationLayers` vector (main.cpp lines 13-15). -/
def validationLayers : List String := ["VK_LAYER_KHRONOS_validation"]

/-- Truthiness of `strcmp(a, b)` in a C `if`: nonzero iff the strings differ
(main.cpp lines 37 and 89 use `strcmp` directly as the condition). -/
def strcmpNonzero (a b : String) : Bool := a != b

/-- The inner search loop shared by `checkValidationLayerSupport`
(lines 36-41) and `hasExensions` (lines 88-94): walk the available names,
and on the first one whose `strcmp` against the wanted name is nonzero
set the found flag and break. -/
def nameSearchLoop (wanted : String) : List String → Bool
  | [] => false
  | l :: rest => if strcmpNonzero wanted l then true else nameSearchLoop wanted rest

/-- Outer loop of `checkValidationLayerSupport` (lines 34-46): for each
required layer name, run the search loop; if the flag stays false return
false, otherwise continue; return true when all names were processed. -/
def checkLayersLoop (available : List String) : List String → Bool
  | [] => true
  | name :: rest =>
      if nameSearchLoop name available then checkLayersLoop available rest else false

/-- `checkValidationLayerSupport` (main.cpp lines 27-49), parameterised by
the required list (the source uses the global `validationLayers`) and by
the layer names reported by `vkEnumerateInstanceLayerProperties`. -/
def checkValidationLayerSupport (required available : List String) : Bool :=
  checkLayersLoop available required

/-- `hasExensions` (main.cpp lines 78-99): for each needed extension emit
one report line, `(name, true)` for "FOUND" (inner loop's flag set) and
`(name, false)` for "NOT FOUND". -/
def hasExensions (availableExtensions neededExtensions : List String) :
    List (String × Bool) :=
  neededExtensions.map (fun n => (n, nameSearchLoop n availableExtensions))

/-- The names `hasExensions` reports as FOUND. -/
def foundPart (availableExtensions neededExtensions : List String) : List String :=
  ((hasExensions availableExtensions neededExtensions).filter (fun e => e.2)).map
    (fun e => e.1)

/-- The names `hasExensions` reports as NOT FOUND. -/
def notFoundPart (availableExtensions neededExtensions : List String) : List String :=
  ((hasExensions availableExtensions neededExtensions).filter (fun e => !e.2)).map
    (fun e => e.1)

/-- The fields of `VkInstanceCreateInfo` the program sets (lines 122-140).
`VkInstanceCreateInfo createInfo{}` value-initialises, so the layer-name
pointer starts out null, modelled as `[]`. -/
structure VkInstanceCreateInfo where
  enabledExtensionCount : Nat
  ppEnabledExtensionNames : List String
  enabledLayerCount : Nat
  ppEnabledLayerNames : List String
deriving DecidableEq, Repr

/-- Assembly of the creation descriptor in `createInstance`
(lines 122-140): extensions come from `glfwGetRequiredInstanceExtensions`;
`enabledLayerCount` is first set to 0, then, if validation is enabled, the
static `validationLayers` list is installed, else the count stays 0. -/
def makeCreateInfo (glfwExtensions : List String) (enableValidation : Bool) :
    VkInstanceCreateInfo :=
  let base : VkInstanceCreateInfo :=
    { enabledExtensionCount := glfwExtensions.length
      ppEnabledExtensionNames := glfwExtensions
      enabledLayerCount := 0
      ppEnabledLayerNames := [] }
  if enableValidation then
    { base with
        enabledLayerCount := validationLayers.length
        ppEnabledLayerNames := validationLayers }
  else
    base

/-- Observable native calls the program issues, in order. -/
inductive Event where
  | glfwInit
  | glfwCreateWindow
  | vkCreateInstance (info : VkInstanceCreateInfo)
  | throwError (msg : String)
  | pollEvents
  | vkDestroyInstance
  | glfwDestroyWindow
  | glfwTerminate
deriving DecidableEq, Repr

/-- What the runtime would answer to each native call. `pollsUntilClose` is
the number of `glfwPollEvents` calls after which `glfwWindowShouldClose`
first reports true (0 means close is already requested at the first
check). -/
structure Runtime where
  glfwInitOk : Bool
  windowCreateOk : Bool
  availableLayers : List String
  availableExtensions : List String
  glfwRequiredExtensions : List String
  vkCreateSucceeds : Bool
  pollsUntilClose : Nat

/-- `initWindow` (lines 66-73): calls `glfwInit`, sets two hints, creates
the window. Neither the `glfwInit` result nor the returned window handle
is inspected; the method always falls through. -/
def initWindow (_rt : Runtime) : List Event :=
  [Event.glfwInit, Event.glfwCreateWindow]

/-- `createInstance` (lines 106-153): first the validation-layer guard
(lines 107-109, throwing before any native create call), then the
descriptor assembly, then `vkCreateInstance`, throwing if it does not
return `VK_SUCCESS` (lines 150-152). Returns the issued events and
whether control flows out normally. -/
def createInstance (rt : Runtime) (enableValidation : Bool) :
    List Event × Bool :=
  if enableValidation &&
      !checkValidationLayerSupport validationLayers rt.availableLayers then
    ([Event.throwError "Validation layers requested, but not available!"], false)
  else
    let info := makeCreateInfo rt.glfwRequiredExtensions enableValidation
    if rt.vkCreateSucceeds then
      ([Event.vkCreateInstance info], true)
    else
      ([Event.vkCreateInstance info,
        Event.throwError "Failed to create instance!"], false)

/-- `mainLoop` (lines 159-163): `while (!glfwWindowShouldClose(window))
glfwPollEvents();` — with close first reported after `n` polls, the loop
performs exactly `n` polls and exits. -/
def mainLoop : Nat → List Event
  | 0 => []
  | n + 1 => Event.pollEvents :: mainLoop n

/-- `cleanup` (lines 165-169): destroy the instance, destroy the window,
terminate GLFW, in that textual order. -/
def cleanup : List Event :=
  [Event.vkDestroyInstance, Event.glfwDestroyWindow, Event.glfwTerminate]

/-- `run` (lines 58-63) as caught in `main` (lines 172-182): the four
phases in order; an exception thrown in `initVulkan` propagates past
`mainLoop` and `cleanup` straight to `main`'s catch block, so cleanup
runs only when `createInstance` returned normally. The Bool is `true`
for `EXIT_SUCCESS`. -/
def run (rt : Runtime) (enableValidation : Bool) : List Event × Bool :=
  let w := initWindow rt
  let c := createInstance rt enableValidation
  if c.2 then
    (w ++ c.1 ++ mainLoop rt.pollsUntilClose ++ cleanup, true)
  else
    (w ++ c.1, false)

/-- `main`'s exit status: 0 on a normal run, `EXIT_FAILURE` (1) when an
exception was caught. -/
def mainExitCode (rt : Runtime) (enableValidation : Bool) : Nat :=
  if (run rt enableValidation).2 then 0 else 1

/-! ### Helper lemmas -/

lemma nameSearchLoop_iff (w : String) (l : List String) :
    nameSearchLoop w l = true ↔ ∃ a ∈ l, w ≠ a := by
  induction l with
  | nil => simp [nameSearchLoop]
  | cons a rest ih =>
      rcases eq_or_ne w a with h | h
      · subst h
        simp [nameSearchLoop, strcmpNonzero, ih]
      · simp [nameSearchLoop, strcmpNonzero, h, ih]

lemma checkLayersLoop_iff (available required : List String) :
    checkLayersLoop available required = true ↔
      ∀ n ∈ required, nameSearchLoop n available = true := by
  induction required with
  | nil => simp [checkLayersLoop]
  | cons n rest ih =>
      by_cases h : nameSearchLoop n available
      · simp [checkLayersLoop, h, ih]
      · simp [checkLayersLoop, h]

lemma foundPart_eq_filter (avail needed : List String) :
    foundPart avail needed = needed.filter (fun n => nameSearchLoop n avail) := by
  induction needed with
  | nil => rfl
  | cons n rest ih =>
      by_cases h : nameSearchLoop n avail <;>
        simp [foundPart, hasExensions, List.filter_cons, h] at ih ⊢ <;>
        exact ih

lemma notFoundPart_eq_filter (avail needed : List String) :
    notFoundPart avail needed = needed.filter (fun n => !nameSearchLoop n avail) := by
  induction needed with
  | nil => rfl
  | cons n rest ih =>
      by_cases h : nameSearchLoop n avail <;>
        simp [notFoundPart, hasExensions, List.filter_cons, h] at ih ⊢ <;>
        exact ih

lemma count_filter_split (p : String → Bool) (l : List String) (x : String) :
    (l.filter p).count x + (l.filter (fun n => !p n)).count x = l.count x := by
  induction l with
  | nil => rfl
  | cons a rest ih =>
      rcases eq_or_ne a x with hx | hx
      · subst hx
        by_cases h : p a
        · have hz : List.count a (rest.filter fun n => !p n) = 0 := by
            rw [List.count_eq_zero]
            intro hmem
            have h2 := (List.mem_filter.mp hmem).2
            simp [h] at h2
          simp [List.filter_cons, h, hz]
        · have hz : List.count a (rest.filter p) = 0 := by
            rw [List.count_eq_zero]
            intro hmem
            have h2 := (List.mem_filter.mp hmem).2
            simp [h] at h2
          simp [List.filter_cons, h, hz]
      · by_cases h : p a <;>
          simp [List.filter_cons, h, List.count_cons, hx, ih]

lemma mem_mainLoop (n : Nat) (e : Event) (h : e ∈ mainLoop n) :
    e = Event.pollEvents := by
  induction n with
  | zero => simp [mainLoop] at h
  | succ k ih =>
      rcases List.mem_cons.mp h with h1 | h1
      · exact h1
      · exact ih h1

lemma mainLoop_length (n : Nat) : (mainLoop n).length = n := by
  induction n with
  | zero => rfl
  | succ k ih => simp [mainLoop, ih]

lemma createInstance_success_events (rt : Runtime) (v : Bool)
    (h : (createInstance rt v).2 = true) :
    (createInstance rt v).1 =
      [Event.vkCreateInstance (makeCreateInfo rt.glfwRequiredExtensions v)] := by
  by_cases hg :
      (v && !checkValidationLayerSupport validationLayers rt.availableLayers) = true
  · simp [createInstance, hg] at h
  · by_cases hc : rt.vkCreateSucceeds <;>
      simp [createInstance, hg, hc] at h ⊢

lemma createInstance_events_cases (rt : Runtime) (v : Bool) :
    (createInstance rt v).1 =
        [Event.throwError "Validation layers requested, but not available!"] ∨
      (createInstance rt v).1 =
        [Event.vkCreateInstance (makeCreateInfo rt.glfwRequiredExtensions v)] ∨
      (createInstance rt v).1 =
        [Event.vkCreateInstance (makeCreateInfo rt.glfwRequiredExtensions v),
         Event.throwError "Failed to create instance!"] := by
  by_cases hg :
      (v && !checkValidationLayerSupport validationLayers rt.availableLayers) = true
  · left
    simp [createInstance, hg]
  · by_cases hc : rt.vkCreateSucceeds
    · right; left
      simp [createInstance, hg, hc]
    · right; right
      simp [createInstance, hg, hc]

lemma destroy_not_in_createInstance (rt : Runtime) (v : Bool) (e : Event)
    (hd : e = Event.vkDestroyInstance ∨ e = Event.glfwDestroyWindow ∨
      e = Event.glfwTerminate ∨ e = Event.pollEvents) :
    e ∉ (createInstance rt v).1 := by
  rcases createInstance_events_cases rt v with h | h | h <;> rw [h] <;>
    rcases hd with rfl | rfl | rfl | rfl <;> simp

lemma createInstance_failure_throw (rt : Runtime) (v : Bool)
    (h : (createInstance rt v).2 = false) :
    ∃ m, Event.throwError m ∈ (createInstance rt v).1 := by
  by_cases hg :
      (v && !checkValidationLayerSupport validationLayers rt.availableLayers) = true
  · exact ⟨"Validation layers requested, but not available!", by
      simp [createInstance, hg]⟩
  · by_cases hc : rt.vkCreateSucceeds
    · simp [createInstance, hg, hc] at h
    · exact ⟨"Failed to create instance!", by simp [createInstance, hg, hc]⟩

lemma run_snd (rt : Runtime) (v : Bool) :
    (run rt v).2 = (createInstance rt v).2 := by
  unfold run
  by_cases hc : (createInstance rt v).2 <;> simp [hc]

lemma run_success_trace (rt : Runtime) (v : Bool)
    (hc : (createInstance rt v).2 = true) :
    (run rt v).1 = initWindow rt ++ (createInstance rt v).1 ++
      mainLoop rt.pollsUntilClose ++ cleanup := by
  unfold run
  simp [hc]

lemma run_failure_trace (rt : Runtime) (v : Bool)
    (hc : (createInstance rt v).2 = false) :
    (run rt v).1 = initWindow rt ++ (createInstance rt v).1 := by
  unfold run
  simp [hc]

lemma teardown_event_not_in_wc (rt : Runtime) (v : Bool) (e : Event)
    (hd : e = Event.vkDestroyInstance ∨ e = Event.glfwDestroyWindow ∨
      e = Event.glfwTerminate) :
    e ∉ initWindow rt ++ (createInstance rt v).1 := by
  intro hmem
  rcases List.mem_append.mp hmem with h1 | h1
  · rcases hd with rfl | rfl | rfl <;> simp [initWindow] at h1
  · exact destroy_not_in_createInstance rt v e (by tauto) h1

lemma teardown_event_not_before (rt : Runtime) (v : Bool) (n : Nat) (e : Event)
    (hd : e = Event.vkDestroyInstance ∨ e = Event.glfwDestroyWindow ∨
      e = Event.glfwTerminate) :
    e ∉ initWindow rt ++ (createInstance rt v).1 ++ mainLoop n := by
  intro hmem
  rcases List.mem_append.mp hmem with h1 | h1
  · exact teardown_event_not_in_wc rt v e hd h1
  · have h2 := mem_mainLoop n e h1
    rcases hd with rfl | rfl | rfl <;> simp at h2

/-! ### Concrete runtimes used by the witnesses and counterexamples -/

/-- A runtime on which every native call succeeds and close is already
requested at the first check of the run loop. -/
def rtOk : Runtime where
  glfwInitOk := true
  windowCreateOk := true
  availableLayers := []
  availableExtensions := ["VK_KHR_surface"]
  glfwRequiredExtensions := ["VK_KHR_surface"]
  vkCreateSucceeds := true
  pollsUntilClose := 0

/-- A runtime whose only available layer is NOT the required validation
layer. -/
def rtLayerBug : Runtime where
  glfwInitOk := true
  windowCreateOk := true
  availableLayers := ["VK_LAYER_NV_optimus"]
  availableExtensions := []
  glfwRequiredExtensions := []
  vkCreateSucceeds := true
  pollsUntilClose := 0

/-- A runtime on which `vkCreateInstance` returns a non-success status. -/
def rtCreateFail : Runtime where
  glfwInitOk := true
  windowCreateOk := true
  availableLayers := []
  availableExtensions := []
  glfwRequiredExtensions := []
  vkCreateSucceeds := false
  pollsUntilClose := 0

/-- A runtime on which GLFW init and window creation both fail. -/
def rtWindowFail : Runtime where
  glfwInitOk := false
  windowCreateOk := false
  availableLayers := []
  availableExtensions := []
  glfwRequiredExtensions := []
  vkCreateSucceeds := true
  pollsUntilClose := 0

/-- A runtime on which close is first reported after exactly one poll. -/
def rtCloseAfterOne : Runtime where
  glfwInitOk := true
  windowCreateOk := true
  availableLayers := []
  availableExtensions := []
  glfwRequiredExtensions := []
  vkCreateSucceeds := true
  pollsUntilClose := 1

/-! ### Claim theorems -/

/-- C10: the name test actually used marks a required name as found iff
some available entry compares UNEQUAL to it under `strcmp`; hence
`checkValidationLayerSupport` is false when the only available layer
exactly equals the required one, and true when a differently-named layer
is available even though the required layer is absent. -/
theorem checkValidationLayerSupport_found_means_differs :
    (∀ required available : List String,
      checkValidationLayerSupport required available = true ↔
        ∀ name ∈ required, ∃ a ∈ available, name ≠ a) ∧
    checkValidationLayerSupport ["VK_LAYER_KHRONOS_validation"]
      ["VK_LAYER_KHRONOS_validation"] = false ∧
    checkValidationLayerSupport ["VK_LAYER_KHRONOS_validation"]
      ["VK_LAYER_NV_optimus"] = true := by
  refine ⟨fun required available => ?_, by decide, by decide⟩
  simp only [checkValidationLayerSupport, checkLayersLoop_iff, nameSearchLoop_iff]

/-- C10 witness: the characterisation instantiated at concrete lists. -/
theorem checkValidationLayerSupport_found_means_differs_witness :
    checkValidationLayerSupport ["a"] ["b"] = true ↔
      ∀ name ∈ (["a"] : List String), ∃ a ∈ (["b"] : List String), name ≠ a :=
  checkValidationLayerSupport_found_means_differs.1 ["a"] ["b"]

/-- C1 (refuting the subset spec): the claim says the check is true iff
every required name is present among the available names.  On the code,
with the required layer the ONLY available layer (so required ⊆ available)
the check returns false, and with the required layer absent but a
different layer available it returns true. -/
theorem checkValidationLayerSupport_subset_spec_fails :
    ("VK_LAYER_KHRONOS_validation" ∈
      (["VK_LAYER_KHRONOS_validation"] : List String)) ∧
    checkValidationLayerSupport ["VK_LAYER_KHRONOS_validation"]
      ["VK_LAYER_KHRONOS_validation"] = false ∧
    ("VK_LAYER_KHRONOS_validation" ∉ (["VK_LAYER_NV_optimus"] : List String)) ∧
    checkValidationLayerSupport ["VK_LAYER_KHRONOS_validation"]
      ["VK_LAYER_NV_optimus"] = true := by decide

/-- C2 (refuting the no-create guarantee): with validation enabled and the
required validation layer absent from the available layers (only a
differently-named layer is reported), `createInstance` does NOT throw;
it issues the native `vkCreateInstance` call. -/
theorem createInstance_issues_create_despite_missing_layer :
    ("VK_LAYER_KHRONOS_validation" ∉ rtLayerBug.availableLayers) ∧
    (createInstance rtLayerBug true).1 =
      [Event.vkCreateInstance (makeCreateInfo [] true)] := by decide

/-- C4: the extension report partitions the needed names exactly into a
FOUND part and a NOT-FOUND part: membership in one of the two parts is
membership in the needed list, the parts are disjoint, and each needed
name is reported exactly as often as it occurs in the needed list. -/
theorem hasExensions_partitions (avail needed : List String) (x : String) :
    ((x ∈ foundPart avail needed ∨ x ∈ notFoundPart avail needed) ↔
      x ∈ needed) ∧
    ¬(x ∈ foundPart avail needed ∧ x ∈ notFoundPart avail needed) ∧
    (foundPart avail needed).count x + (notFoundPart avail needed).count x =
      needed.count x := by
  rw [foundPart_eq_filter, notFoundPart_eq_filter]
  refine ⟨?_, ?_, count_filter_split _ needed x⟩
  · by_cases h : nameSearchLoop x avail <;> simp [List.mem_filter, h]
  · rintro ⟨h1, h2⟩
    have e1 := (List.mem_filter.mp h1).2
    have e2 := (List.mem_filter.mp h2).2
    simp [e1] at e2

/-- C5: in every full successful run the native instance destroy comes
strictly before the window destroy, which comes strictly before GLFW
termination — they are the unique final three events, in that order. -/
theorem run_teardown_order (rt : Runtime) (v : Bool)
    (h : (run rt v).2 = true) :
    ∃ p, (run rt v).1 =
        p ++ [Event.vkDestroyInstance, Event.glfwDestroyWindow,
              Event.glfwTerminate] ∧
      Event.vkDestroyInstance ∉ p ∧ Event.glfwDestroyWindow ∉ p ∧
      Event.glfwTerminate ∉ p := by
  have hc : (createInstance rt v).2 = true := by
    rw [← run_snd]
    exact h
  refine ⟨initWindow rt ++ (createInstance rt v).1 ++
      mainLoop rt.pollsUntilClose, ?_, ?_, ?_, ?_⟩
  · rw [run_success_trace rt v hc]
    rfl
  · exact teardown_event_not_before rt v _ _ (by tauto)
  · exact teardown_event_not_before rt v _ _ (by tauto)
  · exact teardown_event_not_before rt v _ _ (by tauto)

/-- C5 witness: the teardown ordering on a concrete successful run. -/
theorem run_teardown_order_witness :
    ∃ p, (run rtOk false).1 =
        p ++ [Event.vkDestroyInstance, Event.glfwDestroyWindow,
              Event.glfwTerminate] ∧
      Event.vkDestroyInstance ∉ p ∧ Event.glfwDestroyWindow ∉ p ∧
      Event.glfwTerminate ∉ p :=
  run_teardown_order rtOk false (by decide)

/-- C7: in every execution — successful or failing at any phase — the
native instance destroy is issued at most once. -/
theorem run_destroy_at_most_once (rt : Runtime) (v : Bool) :
    ((run rt v).1.count Event.vkDestroyInstance) ≤ 1 := by
  have hw : (initWindow rt).count Event.vkDestroyInstance = 0 := rfl
  have hcr : ((createInstance rt v).1.count Event.vkDestroyInstance) = 0 :=
    List.count_eq_zero.mpr (destroy_not_in_createInstance rt v _ (by tauto))
  have hm : ∀ n, (mainLoop n).count Event.vkDestroyInstance = 0 := fun n =>
    List.count_eq_zero.mpr (by
      intro hmem
      have h2 := mem_mainLoop n _ hmem
      simp at h2)
  by_cases hc : (createInstance rt v).2
  · rw [run_success_trace rt v hc]
    simp [List.count_append, hw, hcr, hm, cleanup]
  · have hc' : (createInstance rt v).2 = false := by simpa using hc
    rw [run_failure_trace rt v hc']
    simp [List.count_append, hw, hcr]

/-- C3 counterexample: when the native create call fails, the process does
exit non-zero with a single error, but the window is NOT released — no
`glfwDestroyWindow` is ever issued on that run. -/
theorem run_createFail_skips_window_release :
    mainExitCode rtCreateFail false = 1 ∧
    Event.throwError "Failed to create instance!" ∈ (run rtCreateFail false).1 ∧
    Event.glfwDestroyWindow ∉ (run rtCreateFail false).1 := by decide

/-- C3 amended: on any failing run the process surfaces one error and
exits non-zero, but performs no teardown at all: neither the instance nor
the window is released and GLFW is not terminated (cleanup runs only on
the success path). -/
theorem run_failure_no_teardown (rt : Runtime) (v : Bool)
    (h : (run rt v).2 = false) :
    mainExitCode rt v = 1 ∧
    (∃ m, Event.throwError m ∈ (run rt v).1) ∧
    Event.vkDestroyInstance ∉ (run rt v).1 ∧
    Event.glfwDestroyWindow ∉ (run rt v).1 ∧
    Event.glfwTerminate ∉ (run rt v).1 := by
  have hc : (createInstance rt v).2 = false := by
    rw [← run_snd]
    exact h
  refine ⟨by simp [mainExitCode, h], ?_, ?_, ?_, ?_⟩
  · obtain ⟨m, hm⟩ := createInstance_failure_throw rt v hc
    refine ⟨m, ?_⟩
    rw [run_failure_trace rt v hc]
    exact List.mem_append.mpr (Or.inr hm)
  · rw [run_failure_trace rt v hc]
    exact teardown_event_not_in_wc rt v _ (by tauto)
  · rw [run_failure_trace rt v hc]
    exact teardown_event_not_in_wc rt v _ (by tauto)
  · rw [run_failure_trace rt v hc]
    exact teardown_event_not_in_wc rt v _ (by tauto)

/-- C3 amended witness: a run with validation requested but no layers
available fails with no teardown. -/
theorem run_failure_no_teardown_witness :
    mainExitCode rtCreateFail true = 1 ∧
    (∃ m, Event.throwError m ∈ (run rtCreateFail true).1) ∧
    Event.vkDestroyInstance ∉ (run rtCreateFail true).1 ∧
    Event.glfwDestroyWindow ∉ (run rtCreateFail true).1 ∧
    Event.glfwTerminate ∉ (run rtCreateFail true).1 :=
  run_failure_no_teardown rtCreateFail true (by decide)

/-- C6 counterexample: with both GLFW init and window creation failing,
the lifecycle still proceeds into instance bootstrap and the process can
even exit zero — window-open failure is not fatal in the code. -/
theorem initWindow_failure_not_fatal :
    rtWindowFail.glfwInitOk = false ∧ rtWindowFail.windowCreateOk = false ∧
    Event.vkCreateInstance (makeCreateInfo [] false) ∈
      (run rtWindowFail false).1 ∧
    mainExitCode rtWindowFail false = 0 := by decide

/-- C6 amended: `initWindow` inspects neither the GLFW init result nor the
created window handle; every run, whatever the windowing layer reports,
continues into `createInstance`. -/
theorem run_proceeds_past_initWindow (rt : Runtime) (v : Bool) :
    ∃ rest, (run rt v).1 =
      [Event.glfwInit, Event.glfwCreateWindow] ++ (createInstance rt v).1 ++
        rest := by
  by_cases hc : (createInstance rt v).2
  · refine ⟨mainLoop rt.pollsUntilClose ++ cleanup, ?_⟩
    rw [run_success_trace rt v hc]
    simp [initWindow, List.append_assoc]
  · have hc' : (createInstance rt v).2 = false := by simpa using hc
    refine ⟨[], ?_⟩
    rw [run_failure_trace rt v hc']
    simp [initWindow]

/-- C8: every creation descriptor submitted to the native create call
carries the windowing layer's required extension list as its enabled
extensions; with validation enabled its enabled layers are exactly the
static `validationLayers` list, and with validation disabled its enabled
layer count is zero with an empty layer list. -/
theorem createInstance_descriptor (rt : Runtime) (v : Bool)
    (info : VkInstanceCreateInfo)
    (h : Event.vkCreateInstance info ∈ (createInstance rt v).1) :
    info.ppEnabledExtensionNames = rt.glfwRequiredExtensions ∧
    info.enabledExtensionCount = rt.glfwRequiredExtensions.length ∧
    (v = true → info.ppEnabledLayerNames = validationLayers ∧
      info.enabledLayerCount = validationLayers.length) ∧
    (v = false → info.enabledLayerCount = 0 ∧
      info.ppEnabledLayerNames = []) := by
  have hi : info = makeCreateInfo rt.glfwRequiredExtensions v := by
    rcases createInstance_events_cases rt v with hcase | hcase | hcase <;>
      rw [hcase] at h <;> simp at h <;> exact h
  subst hi
  cases v <;> simp [makeCreateInfo, validationLayers]

/-- C8 witness: the descriptor of a concrete validation-disabled creation
call. -/
theorem createInstance_descriptor_witness :
    (makeCreateInfo rtOk.glfwRequiredExtensions false).ppEnabledExtensionNames =
      rtOk.glfwRequiredExtensions ∧
    (makeCreateInfo rtOk.glfwRequiredExtensions false).enabledExtensionCount =
      rtOk.glfwRequiredExtensions.length ∧
    (false = true →
      (makeCreateInfo rtOk.glfwRequiredExtensions false).ppEnabledLayerNames =
        validationLayers ∧
      (makeCreateInfo rtOk.glfwRequiredExtensions false).enabledLayerCount =
        validationLayers.length) ∧
    (false = false →
      (makeCreateInfo rtOk.glfwRequiredExtensions false).enabledLayerCount = 0 ∧
      (makeCreateInfo rtOk.glfwRequiredExtensions false).ppEnabledLayerNames =
        []) :=
  createInstance_descriptor rtOk false
    (makeCreateInfo rtOk.glfwRequiredExtensions false) (by decide)

/-- C9: the run loop consists of nothing but event polls, one poll per
iteration; when close is first reported after the first poll, the loop
exits after exactly that single poll and the trace ends with the poll
followed immediately by the instance-then-window-then-terminate
teardown. -/
theorem mainLoop_polls_only_and_immediate_close :
    (∀ n e, e ∈ mainLoop n → e = Event.pollEvents) ∧
    (∀ n, (mainLoop n).length = n) ∧
    mainLoop 1 = [Event.pollEvents] ∧
    (∀ (rt : Runtime) (v : Bool), rt.pollsUntilClose = 1 →
      (run rt v).2 = true →
      ∃ p, (run rt v).1 =
          p ++ [Event.pollEvents, Event.vkDestroyInstance,
                Event.glfwDestroyWindow, Event.glfwTerminate] ∧
        Event.pollEvents ∉ p) := by
  refine ⟨mem_mainLoop, mainLoop_length, rfl, ?_⟩
  intro rt v h1 h2
  have hc : (createInstance rt v).2 = true := by
    rw [← run_snd]
    exact h2
  refine ⟨initWindow rt ++ (createInstance rt v).1, ?_, ?_⟩
  · rw [run_success_trace rt v hc, h1]
    simp [mainLoop, cleanup, List.append_assoc]
  · intro hmem
    rcases List.mem_append.mp hmem with h3 | h3
    · simp [initWindow] at h3
    · rw [createInstance_success_events rt v hc] at h3
      simp at h3

/-- C9 witness: a concrete run whose close arrives after one poll ends in
a single poll followed by the ordered teardown. -/
theorem mainLoop_polls_only_and_immediate_close_witness :
    ∃ p, (run rtCloseAfterOne false).1 =
        p ++ [Event.pollEvents, Event.vkDestroyInstance,
              Event.glfwDestroyWindow, Event.glfwTerminate] ∧
      Event.pollEvents ∉ p :=
  mainLoop_polls_only_and_immediate_close.2.2.2 rtCloseAfterOne false rfl
    (by decide)

end VulkanEngine
